import Mathlib

/-!
Verification of the Word-to-PPTX converter core module
(`word_to_pptx_core.py`): the Pattern Classifier
(`WordDocumentAnalyzer._classify_content` and the pattern lists built in
`WordDocumentAnalyzer.__init__`), the Document Analyzer
(`analyze_document`, `_classify_header`, `_analyze_paragraph`,
`_optimize_structure`, `_estimate_text_length`), and the Pagination
Engine (`ContentToSlideMapper.create_slides`, `_should_create_new_slide`,
`_create_title_slide`, `_create_content_slide`, `_clean_chapter_text`,
`_clean_subtitle_text`, `_finalize_slide`, `_get_best_layout`).

The regex patterns of the source are all left-anchored (`^...`) and each
quantified character class is disjoint from the character that follows
it, so Python's greedy backtracking matcher coincides with plain maximal
munch; each pattern is embedded as a prefix matcher
`List Char → Option (List Char)` returning the remainder after the
matched prefix.  Python's `\s` and `str.strip` are modelled by
`isPySpace` over the Unicode whitespace code points Python treats as
whitespace; `\d`, `[a-z]`, `[A-Z]`, `[1-9]` are modelled over their
ASCII ranges.
-/

/-- Whitespace as matched by Python's `\s` and stripped by `str.strip`. -/
def isPySpace (c : Char) : Bool :=
  c == ' ' || c == '\t' || c == '\n' || c == '\r' ||
  c.toNat == 11 || c.toNat == 12 ||
  (28 ≤ c.toNat && c.toNat ≤ 31) || c.toNat == 133 || c.toNat == 160 ||
  c.toNat == 5760 || (8192 ≤ c.toNat && c.toNat ≤ 8202) ||
  c.toNat == 8232 || c.toNat == 8233 || c.toNat == 8239 ||
  c.toNat == 8287 || c.toNat == 12288

/-- The character class `[一二三四五六七八九十]` of the source patterns. -/
def isCjkNum (c : Char) : Bool :=
  c == '一' || c == '二' || c == '三' || c == '四' || c == '五' ||
  c == '六' || c == '七' || c == '八' || c == '九' || c == '十'

/-- The class `[一二三四五六七八九十壹貳參肆伍陸柒捌玖拾]`. -/
def isCjkNumExt (c : Char) : Bool :=
  isCjkNum c ||
  c == '壹' || c == '貳' || c == '參' || c == '肆' || c == '伍' ||
  c == '陸' || c == '柒' || c == '捌' || c == '玖' || c == '拾'

/-- The class `[、．.]` (chapter enumeration delimiters). -/
def isChapDelim (c : Char) : Bool :=
  c == '、' || c == '．' || c == '.'

/-- The class `[）)]` (closing parentheses, fullwidth and ASCII). -/
def isParenClose (c : Char) : Bool :=
  c == '）' || c == ')'

/-- The class `[章節部分]`. -/
def isSectionChar (c : Char) : Bool :=
  c == '章' || c == '節' || c == '部' || c == '分'

/-- The class `[•·○]` used by the subtitle patterns. -/
def isSubBullet (c : Char) : Bool :=
  c == '•' || c == '·' || c == '○'

/-- The class `[●◆■▲]` used by the chapter title-cleaning patterns. -/
def isChapBullet (c : Char) : Bool :=
  c == '●' || c == '◆' || c == '■' || c == '▲'

/-- ASCII digit, modelling Python's `\d`. -/
def isAsciiDigit (c : Char) : Bool :=
  '0' ≤ c && c ≤ '9'

/-- The class `[1-9]`. -/
def isNonzeroDigit (c : Char) : Bool :=
  '1' ≤ c && c ≤ '9'

/-- The class `[a-z]`. -/
def isLowerAlpha (c : Char) : Bool :=
  'a' ≤ c && c ≤ 'z'

/-- The class `[A-Z]`. -/
def isUpperAlpha (c : Char) : Bool :=
  'A' ≤ c && c ≤ 'Z'

/-- A left-anchored pattern: maps the input character list to the
remainder after the matched prefix, or `none` when it does not match. -/
abbrev Pat : Type := List Char → Option (List Char)

/-- Match exactly one character of a class. -/
def pChar (f : Char → Bool) : Pat := fun cs =>
  match cs with
  | [] => none
  | c :: rest => if f c then some rest else none

/-- Match one-or-more characters of a class, greedily (regex `+`). -/
def pPlus (f : Char → Bool) : Pat := fun cs =>
  match cs with
  | [] => none
  | c :: rest => if f c then some (rest.dropWhile f) else none

/-- Match zero-or-more characters of a class, greedily (regex `*`). -/
def pStar (f : Char → Bool) : Pat := fun cs =>
  some (cs.dropWhile f)

/-- Match a literal character sequence. -/
def pLit : List Char → Pat
  | [], cs => some cs
  | _ :: _, [] => none
  | l :: ls, c :: cs => if c = l then pLit ls cs else none

/-- Sequential composition of two anchored patterns. -/
def pSeq (a b : Pat) : Pat := fun cs => (a cs).bind b

/-- Trailing `\s*` present in every source pattern. -/
def pSpaces : Pat := pStar isPySpace

/-- Regex `[1-9]\d*`. -/
def pNum : Pat := pSeq (pChar isNonzeroDigit) (pStar isAsciiDigit)

/-- `^[一二三四五六七八九十]+[、．.]\s*` -/
def chapPat1 : Pat := pSeq (pPlus isCjkNum) (pSeq (pChar isChapDelim) pSpaces)

/-- `^第[一二三四五六七八九十壹貳參肆伍陸柒捌玖拾]+[章節部分]\s*` -/
def chapPat2 : Pat :=
  pSeq (pChar (fun c => c == '第'))
    (pSeq (pPlus isCjkNumExt) (pSeq (pChar isSectionChar) pSpaces))

/-- `^第[一二三四五六七八九十]+[、．.]\s*` -/
def chapPat3 : Pat :=
  pSeq (pChar (fun c => c == '第'))
    (pSeq (pPlus isCjkNum) (pSeq (pChar isChapDelim) pSpaces))

/-- A keyword pattern such as `^前言\s*` (`re.match` semantics: the
keyword must appear at the start; anything may follow). -/
def kwPat (s : String) : Pat := pSeq (pLit s.data) pSpaces

/-- The chapter pattern list of `WordDocumentAnalyzer.__init__`, in
declared order. -/
def chapterPatterns : List Pat :=
  [chapPat1, chapPat2, chapPat3,
   kwPat "前言", kwPat "結論", kwPat "總結", kwPat "概述",
   kwPat "摘要", kwPat "序言", kwPat "引言"]

/-- `^[一二三四五六七八九十]+[）)]\s*` -/
def subPat1 : Pat := pSeq (pPlus isCjkNum) (pSeq (pChar isParenClose) pSpaces)

/-- `^\([一二三四五六七八九十]+\)\s*` -/
def subPat2 : Pat :=
  pSeq (pChar (fun c => c == '('))
    (pSeq (pPlus isCjkNum) (pSeq (pChar (fun c => c == ')')) pSpaces))

/-- `^[1-9]\d*[）)]\s*` -/
def subPat3 : Pat := pSeq pNum (pSeq (pChar isParenClose) pSpaces)

/-- `^\([1-9]\d*\)\s*` -/
def subPat4 : Pat :=
  pSeq (pChar (fun c => c == '('))
    (pSeq pNum (pSeq (pChar (fun c => c == ')')) pSpaces))

/-- `^[a-z][）)]\s*` -/
def subPat5 : Pat := pSeq (pChar isLowerAlpha) (pSeq (pChar isParenClose) pSpaces)

/-- `^\([a-z]\)\s*` -/
def subPat6 : Pat :=
  pSeq (pChar (fun c => c == '('))
    (pSeq (pChar isLowerAlpha) (pSeq (pChar (fun c => c == ')')) pSpaces))

/-- `^[•·○]\s*` -/
def subPat7 : Pat := pSeq (pChar isSubBullet) pSpaces

/-- The subtitle pattern list, shared verbatim by the classifier
(`__init__`) and by `_clean_subtitle_text`. -/
def subtitlePatterns : List Pat :=
  [subPat1, subPat2, subPat3, subPat4, subPat5, subPat6, subPat7]

/-- `^[1-9]\d*[、．.]\s*` (cleaning only) -/
def chapCleanPat4 : Pat := pSeq pNum (pSeq (pChar isChapDelim) pSpaces)

/-- `^第[1-9]\d*[章節部分]\s*` (cleaning only) -/
def chapCleanPat5 : Pat :=
  pSeq (pChar (fun c => c == '第')) (pSeq pNum (pSeq (pChar isSectionChar) pSpaces))

/-- `^第[1-9]\d*[、．.]\s*` (cleaning only) -/
def chapCleanPat6 : Pat :=
  pSeq (pChar (fun c => c == '第')) (pSeq pNum (pSeq (pChar isChapDelim) pSpaces))

/-- `^[A-Z][、．.]\s*` (cleaning only) -/
def chapCleanPat7 : Pat := pSeq (pChar isUpperAlpha) (pSeq (pChar isChapDelim) pSpaces)

/-- `^第[A-Z][章節部分]\s*` (cleaning only) -/
def chapCleanPat8 : Pat :=
  pSeq (pChar (fun c => c == '第')) (pSeq (pChar isUpperAlpha) (pSeq (pChar isSectionChar) pSpaces))

/-- `^[●◆■▲]\s*` (cleaning only) -/
def chapCleanPat9 : Pat := pSeq (pChar isChapBullet) pSpaces

/-- The pattern list of `_clean_chapter_text`, in declared order. -/
def chapterCleanPatterns : List Pat :=
  [chapPat1, chapPat2, chapPat3, chapCleanPat4, chapCleanPat5,
   chapCleanPat6, chapCleanPat7, chapCleanPat8, chapCleanPat9]

/-- One `re.sub(pattern, '', text)` step for a left-anchored pattern:
strip the matched prefix if the pattern matches, else leave the text
unchanged. -/
def stripPat (p : Pat) (cs : List Char) : List Char :=
  match p cs with
  | some r => r
  | none => cs

/-- The sequential `for pattern in patterns: cleaned = re.sub(...)` loop
shared by `_clean_chapter_text` and `_clean_subtitle_text`. -/
def applyCleanList (pats : List Pat) (cs : List Char) : List Char :=
  pats.foldl (fun acc p => stripPat p acc) cs

/-- Python `str.strip()` on a character list. -/
def pyStripList (cs : List Char) : List Char :=
  ((cs.dropWhile isPySpace).reverse.dropWhile isPySpace).reverse

/-- Python `str.strip()`. -/
def pyStrip (s : String) : String :=
  String.mk (pyStripList s.data)

/-- `ContentToSlideMapper._clean_chapter_text`. -/
def cleanChapterText (s : String) : String :=
  String.mk (pyStripList (applyCleanList chapterCleanPatterns s.data))

/-- `ContentToSlideMapper._clean_subtitle_text`. -/
def cleanSubtitleText (s : String) : String :=
  String.mk (pyStripList (applyCleanList subtitlePatterns s.data))

/-- Does a pattern match (in `re.match` position) against a string? -/
def patMatches (p : Pat) (s : String) : Bool :=
  (p s.data).isSome

/-- The `for pattern in patterns: if re.match(pattern, text): return ...`
loop: true as soon as the first pattern in declared order matches. -/
def firstMatches : List Pat → String → Bool
  | [], _ => false
  | p :: ps, s => if patMatches p s then true else firstMatches ps s

/-- Content types actually constructed by the source
(`header`, `chapter`, `subtitle`, `content`). -/
inductive CType : Type
  | header
  | chapter
  | subtitle
  | content
deriving DecidableEq, Repr

/-- `WordDocumentAnalyzer._classify_content`: chapter patterns first,
then subtitle patterns, falling through to `(2, content)`.  The
`formatting` argument of the source is accepted and ignored, as in the
source body. -/
def classifyContent (text : String) : Nat × CType :=
  if firstMatches chapterPatterns text then (0, CType.chapter)
  else if firstMatches subtitlePatterns text then (1, CType.subtitle)
  else (2, CType.content)

/-- First-run formatting extracted by `_extract_formatting` (defaults:
bold false, italic false, 12 pt; alignment is the constant `left` in the
source and is omitted). -/
structure Formatting where
  bold : Bool
  italic : Bool
  fontSizePt : Nat
deriving DecidableEq, Repr

/-- A run of a source paragraph (the fields `_extract_formatting` reads). -/
structure RunInfo where
  bold : Bool
  italic : Bool
  fontSizePt : Option Nat
deriving DecidableEq, Repr

/-- A source paragraph: its text and its runs. -/
structure Paragraph where
  text : String
  runs : List RunInfo
deriving DecidableEq, Repr

/-- `WordDocumentAnalyzer._extract_formatting`. -/
def extractFormatting (p : Paragraph) : Formatting :=
  match p.runs with
  | [] => { bold := false, italic := false, fontSizePt := 12 }
  | r :: _ => { bold := r.bold, italic := r.italic, fontSizePt := r.fontSizePt.getD 12 }

/-- The `ContentBlock` dataclass. -/
structure ContentBlock where
  text : String
  level : Nat
  content_type : CType
  formatting : Formatting
  estimated_length : Nat
deriving DecidableEq, Repr

/-- `_estimate_text_length`: each non-ASCII code point counts 2 units,
ASCII counts 1. -/
def estimateTextLength (s : String) : Nat :=
  s.data.foldl (fun acc c => acc + (if c.toNat > 127 then 2 else 1)) 0

/-- `_classify_header` plus the `estimated_length` assignment of
`analyze_document`. -/
def classifyHeaderBlock (p : Paragraph) : ContentBlock :=
  { text := pyStrip p.text
    level := 0
    content_type := CType.header
    formatting := extractFormatting p
    estimated_length := estimateTextLength (pyStrip p.text) }

/-- `_analyze_paragraph` plus the `estimated_length` assignment of
`analyze_document`. -/
def analyzeParagraphBlock (p : Paragraph) : ContentBlock :=
  { text := pyStrip p.text
    level := (classifyContent (pyStrip p.text)).1
    content_type := (classifyContent (pyStrip p.text)).2
    formatting := extractFormatting p
    estimated_length := estimateTextLength (pyStrip p.text) }

/-- The main loop of `analyze_document`: blank paragraphs are skipped,
the first non-blank paragraph becomes the header block, every later
non-blank paragraph is classified. -/
def analyzeLoop (headerLine : Bool) : List Paragraph → List ContentBlock
  | [] => []
  | p :: ps =>
    if pyStrip p.text = "" then analyzeLoop headerLine ps
    else if headerLine then classifyHeaderBlock p :: analyzeLoop false ps
    else analyzeParagraphBlock p :: analyzeLoop false ps

/-- `has_chapter` of `_optimize_structure`. -/
def hasChapter (bs : List ContentBlock) : Bool :=
  bs.any (fun b => b.content_type == CType.chapter)

/-- The promotion loop of `_optimize_structure`: the first block with
`level <= 1 or formatting.bold` becomes `(0, chapter)`. -/
def promoteFirstQualifying : List ContentBlock → List ContentBlock
  | [] => []
  | b :: bs =>
    if b.level ≤ 1 || b.formatting.bold then
      { b with level := 0, content_type := CType.chapter } :: bs
    else b :: promoteFirstQualifying bs

/-- `WordDocumentAnalyzer._optimize_structure`. -/
def optimizeStructure (bs : List ContentBlock) : List ContentBlock :=
  if bs.isEmpty then bs
  else if hasChapter bs then bs
  else promoteFirstQualifying bs

/-- `WordDocumentAnalyzer.analyze_document` on an already-parsed
paragraph sequence. -/
def analyzeDocument (ps : List Paragraph) : List ContentBlock :=
  optimizeStructure (analyzeLoop true ps)

/-- A slide layout of the template (only its name is consulted by
`_get_best_layout`). -/
structure Layout where
  name : String
deriving DecidableEq, Repr

/-- A presentation template: its ordered slide-layout collection
(`prs.slide_layouts`).  `create_slides` clears any pre-existing slides
before emitting, so those are not modelled. -/
structure Template where
  layouts : List Layout
deriving DecidableEq, Repr

/-- The fatal template failure of `_get_best_layout`: indexing
`slide_layouts[0]` of an empty layout collection (the spec's
`TemplateError` kind). -/
inductive TemplateError : Type
  | noLayouts
deriving DecidableEq, Repr

/-- The two `layout_type` arguments given to `_get_best_layout`. -/
inductive SlideKind : Type
  | title
  | content
deriving DecidableEq, Repr

/-- A finalized slide: its title text and its accumulated content
blocks (the spec's SlideSpec; body lines are the blocks' texts in
order, written verbatim by `_finalize_slide`). -/
structure Slide where
  title : String
  kind : SlideKind
  blocks : List ContentBlock
deriving DecidableEq, Repr

/-- A slide that has been created by `add_slide` and titled, but whose
body has not yet been finalized. -/
structure OpenSlide where
  title : String
  kind : SlideKind
deriving DecidableEq, Repr

/-- `self.max_content_length = 220`. -/
def maxContentLength : Nat := 220

/-- `self.max_content_items = 4`. -/
def maxContentItems : Nat := 4

/-- Python's `needle in haystack` substring test. -/
def listContainsSub (needle : List Char) : List Char → Bool
  | [] => needle.isEmpty
  | c :: rest => needle.isPrefixOf (c :: rest) || listContainsSub needle rest

/-- `needle in name.lower()` as used by `_get_best_layout`. -/
def nameContains (name needle : String) : Bool :=
  listContainsSub needle.data (name.data.map Char.toLower)

/-- `ContentToSlideMapper._get_best_layout`.  For `title` the loop
condition `layout == slide_layouts[0]` is satisfied by the very first
layout, so a non-empty collection always resolves; an empty collection
falls through to `slide_layouts[0]`, which fails. -/
def getBestLayout (tpl : Template) (k : SlideKind) : Except TemplateError Layout :=
  match k with
  | SlideKind.title =>
    match tpl.layouts.find? (fun l => nameContains l.name "title" || (tpl.layouts.head? == some l)) with
    | some l => Except.ok l
    | none =>
      match tpl.layouts with
      | [] => Except.error TemplateError.noLayouts
      | l :: _ => Except.ok l
  | SlideKind.content =>
    match tpl.layouts.find? (fun l => nameContains l.name "content") with
    | some l => Except.ok l
    | none =>
      match tpl.layouts with
      | [] => Except.error TemplateError.noLayouts
      | [l] => Except.ok l
      | _ :: l2 :: _ => Except.ok l2

/-- `_create_title_slide`: resolve a layout, add the slide, set its
title to the chapter-cleaned block text. -/
def createTitleSlide (tpl : Template) (b : ContentBlock) : Except TemplateError OpenSlide :=
  (getBestLayout tpl SlideKind.title).map
    (fun _ => { title := cleanChapterText b.text, kind := SlideKind.title })

/-- `_create_content_slide`: resolve a layout, add the slide, set its
title to the subtitle-cleaned block text. -/
def createContentSlide (tpl : Template) (b : ContentBlock) : Except TemplateError OpenSlide :=
  (getBestLayout tpl SlideKind.content).map
    (fun _ => { title := cleanSubtitleText b.text, kind := SlideKind.content })

/-- `_finalize_slide`: the accumulated blocks become the slide body,
one paragraph per block text, verbatim. -/
def finalizeSlide (o : OpenSlide) (content : List ContentBlock) : Slide :=
  { title := o.title, kind := o.kind, blocks := content }

/-- The mutable locals of `create_slides`: emitted slides,
`current_slide`, `current_content`, `current_chapter_title`,
`current_content_length`. -/
structure MapperState where
  slides : List Slide
  openSlide : Option OpenSlide
  content : List ContentBlock
  chapterTitle : String
  contentLength : Nat
deriving DecidableEq, Repr

/-- The state at the top of the `for block in blocks` loop. -/
def initState : MapperState :=
  { slides := [], openSlide := none, content := [], chapterTitle := "", contentLength := 0 }

/-- Close the currently open slide, if any, finalizing the accumulated
content into it (`if current_slide is not None: self._finalize_slide(...)`). -/
def flushOpen (st : MapperState) : List Slide :=
  match st.openSlide with
  | some o => st.slides ++ [finalizeSlide o st.content]
  | none => st.slides

/-- `ContentToSlideMapper._should_create_new_slide`. -/
def shouldCreateNewSlide (content : List ContentBlock) (len : Nat) (b : ContentBlock) : Bool :=
  if maxContentItems ≤ content.length then true
  else if maxContentLength < len + b.estimated_length then true
  else if b.content_type = CType.subtitle ∧ 0 < content.length then true
  else false

/-- The continuation chapter block built inline by `create_slides`
(`current_chapter_title + " (續)"`, level 0, type chapter, empty
formatting, default estimated length 0). -/
def contBlock (chapterTitle : String) : ContentBlock :=
  { text := chapterTitle ++ " (續)"
    level := 0
    content_type := CType.chapter
    formatting := { bold := false, italic := false, fontSizePt := 12 }
    estimated_length := 0 }

/-- One iteration of the `for block in blocks` loop of `create_slides`. -/
def processBlock (tpl : Template) (st : MapperState) (b : ContentBlock) :
    Except TemplateError MapperState :=
  if b.content_type = CType.header then
    (createTitleSlide tpl b).map (fun o =>
      { slides := flushOpen st, openSlide := some o, content := [],
        chapterTitle := cleanChapterText b.text, contentLength := 0 })
  else if b.content_type = CType.chapter then
    (createContentSlide tpl b).map (fun o =>
      { slides := flushOpen st, openSlide := some o, content := [],
        chapterTitle := b.text, contentLength := 0 })
  else if b.content_type = CType.subtitle then
    (createContentSlide tpl (contBlock st.chapterTitle)).map (fun o =>
      { slides := flushOpen st, openSlide := some o, content := [b],
        chapterTitle := st.chapterTitle, contentLength := b.estimated_length })
  else
    if shouldCreateNewSlide st.content st.contentLength b then
      (createContentSlide tpl (contBlock st.chapterTitle)).map (fun o =>
        { slides := flushOpen st, openSlide := some o, content := [b],
          chapterTitle := st.chapterTitle, contentLength := b.estimated_length })
    else
      match st.openSlide with
      | none =>
        (createContentSlide tpl b).map (fun o =>
          { slides := st.slides, openSlide := some o, content := st.content ++ [b],
            chapterTitle := st.chapterTitle, contentLength := st.contentLength + b.estimated_length })
      | some o =>
        Except.ok
          { slides := st.slides, openSlide := some o, content := st.content ++ [b],
            chapterTitle := st.chapterTitle, contentLength := st.contentLength + b.estimated_length }

/-- The whole `for block in blocks` loop, short-circuiting on the first
template failure (a raised exception in the source). -/
def runBlocks (tpl : Template) (st : MapperState) : List ContentBlock →
    Except TemplateError MapperState
  | [] => Except.ok st
  | b :: bs =>
    match processBlock tpl st b with
    | Except.ok st2 => runBlocks tpl st2 bs
    | Except.error e => Except.error e

/-- `ContentToSlideMapper.create_slides`: run the loop from the initial
state, then flush the last open slide. -/
def createSlides (tpl : Template) (blocks : List ContentBlock) :
    Except TemplateError (List Slide) :=
  (runBlocks tpl initState blocks).map flushOpen

/-- Sum of `estimated_length` over a block list. -/
def sumLen (bs : List ContentBlock) : Nat :=
  (bs.map (fun b => b.estimated_length)).sum

/-- A template with a single generic layout, used for concrete runs. -/
def sampleTemplate : Template := { layouts := [{ name := "Layout A" }] }

/-- A template whose layout collection is empty. -/
def emptyTemplate : Template := { layouts := [] }

/-- The pagination laws for one finalized slide: it holds at most
`maxContentItems` accumulated blocks, and their total estimated length
is within `maxContentLength` unless the slide holds at most one
block. -/
def SlideOk (s : Slide) : Prop :=
  s.blocks.length ≤ maxContentItems ∧
  (sumLen s.blocks ≤ maxContentLength ∨ s.blocks.length ≤ 1)

/-- The loop invariant of `create_slides`: every emitted slide
satisfies the pagination laws, `current_content_length` tracks the
accumulated sum, and the open accumulator itself satisfies both
budgets (up to the single-oversized-block exception). -/
def StOk (st : MapperState) : Prop :=
  (∀ s ∈ st.slides, SlideOk s) ∧
  st.contentLength = sumLen st.content ∧
  st.content.length ≤ maxContentItems ∧
  (sumLen st.content ≤ maxContentLength ∨ st.content.length ≤ 1)

/-- A pattern never returns a remainder longer than its input. -/
def PatShrinks (p : Pat) : Prop :=
  ∀ cs r, p cs = some r → r.length ≤ cs.length

lemma dropWhileLenLe (f : Char → Bool) :
    ∀ cs : List Char, (cs.dropWhile f).length ≤ cs.length := by
  intro cs
  induction cs with
  | nil => simp [List.dropWhile]
  | cons c rest ih =>
    by_cases h : f c
    · simp only [List.dropWhile_cons, h, if_true, List.length_cons]
      exact le_trans ih (Nat.le_succ _)
    · simp [List.dropWhile_cons, h]

lemma pChar_shrinks (f : Char → Bool) : PatShrinks (pChar f) := by
  intro cs r h
  cases cs with
  | nil => simp [pChar] at h
  | cons c rest =>
    by_cases hf : f c
    · simp [pChar, hf] at h
      subst h
      simp [Nat.le_succ]
    · simp [pChar, hf] at h

lemma pPlus_shrinks (f : Char → Bool) : PatShrinks (pPlus f) := by
  intro cs r h
  cases cs with
  | nil => simp [pPlus] at h
  | cons c rest =>
    by_cases hf : f c
    · simp [pPlus, hf] at h
      subst h
      simp only [List.length_cons]
      exact le_trans (dropWhileLenLe f rest) (Nat.le_succ _)
    · simp [pPlus, hf] at h

lemma pStar_shrinks (f : Char → Bool) : PatShrinks (pStar f) := by
  intro cs r h
  simp [pStar] at h
  subst h
  exact dropWhileLenLe f cs

lemma pLit_shrinks (ls : List Char) : PatShrinks (pLit ls) := by
  induction ls with
  | nil =>
    intro cs r h
    simp [pLit] at h
    subst h
    exact le_rfl
  | cons l ls ih =>
    intro cs r h
    cases cs with
    | nil => simp [pLit] at h
    | cons c rest =>
      by_cases hc : c = l
      · simp [pLit, hc] at h
        simp only [List.length_cons]
        exact le_trans (ih rest r h) (Nat.le_succ _)
      · simp [pLit, hc] at h

lemma pSeq_shrinks {a b : Pat} (ha : PatShrinks a) (hb : PatShrinks b) :
    PatShrinks (pSeq a b) := by
  intro cs r h
  unfold pSeq at h
  cases hac : a cs with
  | none => rw [hac] at h; simp at h
  | some mid =>
    rw [hac] at h
    simp at h
    exact le_trans (hb mid r h) (ha cs mid hac)

lemma pSpaces_shrinks : PatShrinks pSpaces := pStar_shrinks isPySpace

lemma pNum_shrinks : PatShrinks pNum :=
  pSeq_shrinks (pChar_shrinks _) (pStar_shrinks _)

lemma chapterClean_shrinks : ∀ p ∈ chapterCleanPatterns, PatShrinks p := by
  intro p hp
  simp only [chapterCleanPatterns, List.mem_cons, List.not_mem_nil, or_false] at hp
  rcases hp with rfl | rfl | rfl | rfl | rfl | rfl | rfl | rfl | rfl
  · exact pSeq_shrinks (pPlus_shrinks _) (pSeq_shrinks (pChar_shrinks _) pSpaces_shrinks)
  · exact pSeq_shrinks (pChar_shrinks _)
      (pSeq_shrinks (pPlus_shrinks _) (pSeq_shrinks (pChar_shrinks _) pSpaces_shrinks))
  · exact pSeq_shrinks (pChar_shrinks _)
      (pSeq_shrinks (pPlus_shrinks _) (pSeq_shrinks (pChar_shrinks _) pSpaces_shrinks))
  · exact pSeq_shrinks pNum_shrinks (pSeq_shrinks (pChar_shrinks _) pSpaces_shrinks)
  · exact pSeq_shrinks (pChar_shrinks _)
      (pSeq_shrinks pNum_shrinks (pSeq_shrinks (pChar_shrinks _) pSpaces_shrinks))
  · exact pSeq_shrinks (pChar_shrinks _)
      (pSeq_shrinks pNum_shrinks (pSeq_shrinks (pChar_shrinks _) pSpaces_shrinks))
  · exact pSeq_shrinks (pChar_shrinks _) (pSeq_shrinks (pChar_shrinks _) pSpaces_shrinks)
  · exact pSeq_shrinks (pChar_shrinks _)
      (pSeq_shrinks (pChar_shrinks _) (pSeq_shrinks (pChar_shrinks _) pSpaces_shrinks))
  · exact pSeq_shrinks (pChar_shrinks _) pSpaces_shrinks

lemma subtitle_shrinks : ∀ p ∈ subtitlePatterns, PatShrinks p := by
  intro p hp
  simp only [subtitlePatterns, List.mem_cons, List.not_mem_nil, or_false] at hp
  rcases hp with rfl | rfl | rfl | rfl | rfl | rfl | rfl
  · exact pSeq_shrinks (pPlus_shrinks _) (pSeq_shrinks (pChar_shrinks _) pSpaces_shrinks)
  · exact pSeq_shrinks (pChar_shrinks _)
      (pSeq_shrinks (pPlus_shrinks _) (pSeq_shrinks (pChar_shrinks _) pSpaces_shrinks))
  · exact pSeq_shrinks pNum_shrinks (pSeq_shrinks (pChar_shrinks _) pSpaces_shrinks)
  · exact pSeq_shrinks (pChar_shrinks _)
      (pSeq_shrinks pNum_shrinks (pSeq_shrinks (pChar_shrinks _) pSpaces_shrinks))
  · exact pSeq_shrinks (pChar_shrinks _) (pSeq_shrinks (pChar_shrinks _) pSpaces_shrinks)
  · exact pSeq_shrinks (pChar_shrinks _)
      (pSeq_shrinks (pChar_shrinks _) (pSeq_shrinks (pChar_shrinks _) pSpaces_shrinks))
  · exact pSeq_shrinks (pChar_shrinks _) pSpaces_shrinks

lemma stripPat_len (p : Pat) (hp : PatShrinks p) (cs : List Char) :
    (stripPat p cs).length ≤ cs.length := by
  unfold stripPat
  split
  next r heq => exact hp cs r heq
  next => exact le_rfl

lemma applyCleanList_len (pats : List Pat) (h : ∀ p ∈ pats, PatShrinks p) :
    ∀ cs : List Char, (applyCleanList pats cs).length ≤ cs.length := by
  induction pats with
  | nil => intro cs; simp [applyCleanList]
  | cons p ps ih =>
    intro cs
    have h1 : (applyCleanList ps (stripPat p cs)).length ≤ (stripPat p cs).length :=
      ih (fun q hq => h q (List.mem_cons_of_mem _ hq)) _
    have h2 := stripPat_len p (h p (List.mem_cons_self _ _)) cs
    exact le_trans h1 h2

lemma pyStripList_len (cs : List Char) : (pyStripList cs).length ≤ cs.length := by
  unfold pyStripList
  calc (((cs.dropWhile isPySpace).reverse.dropWhile isPySpace).reverse).length
      = ((cs.dropWhile isPySpace).reverse.dropWhile isPySpace).length := by simp
    _ ≤ (cs.dropWhile isPySpace).reverse.length := dropWhileLenLe _ _
    _ = (cs.dropWhile isPySpace).length := by simp
    _ ≤ cs.length := dropWhileLenLe _ _

/-- Claim C3 counterexample: neither title-cleaning pipeline is
idempotent.  On `"1、一、甲"` the chapter pipeline's Arabic-numeral
pattern strips `"1、"`, exposing the CJK-numeral prefix `"一、"`, which
an earlier pattern of the list strips only on a second application;
likewise `"(1)一）甲"` for the subtitle pipeline. -/
theorem cleaning_not_idempotent :
    cleanChapterText (cleanChapterText "1、一、甲") ≠ cleanChapterText "1、一、甲" ∧
    cleanSubtitleText (cleanSubtitleText "(1)一）甲") ≠ cleanSubtitleText "(1)一）甲" := by
  decide

/-- Claim C3 (amended): the title-cleaning pipelines are not idempotent
in general — stripping one enumeration prefix can expose another that
only a further application removes — but each application is length
non-increasing: it only ever strips prefixes and surrounding
whitespace. -/
theorem cleaning_length_le (s : String) :
    (cleanChapterText s).length ≤ s.length ∧ (cleanSubtitleText s).length ≤ s.length := by
  constructor
  · show (pyStripList (applyCleanList chapterCleanPatterns s.data)).length ≤ s.data.length
    exact le_trans (pyStripList_len _) (applyCleanList_len _ chapterClean_shrinks _)
  · show (pyStripList (applyCleanList subtitlePatterns s.data)).length ≤ s.data.length
    exact le_trans (pyStripList_len _) (applyCleanList_len _ subtitle_shrinks _)

lemma firstMatches_eq_any (pats : List Pat) (t : String) :
    firstMatches pats t = pats.any (fun p => patMatches p t) := by
  induction pats with
  | nil => rfl
  | cons p ps ih =>
    simp only [firstMatches, List.any_cons, ih]
    by_cases h : patMatches p t
    · simp [h]
    · simp [h]

/-- Claim C8: the classifier tries the chapter patterns first (any
match, taken in declared order, yields `(0, chapter)`), then the
subtitle patterns (any match yields `(1, subtitle)`), and returns
`(2, content)` when no pattern matches; the chapter group wins even
when a subtitle pattern would also match. -/
theorem classifier_order (t : String) :
    ((∃ p ∈ chapterPatterns, patMatches p t = true) →
        classifyContent t = (0, CType.chapter)) ∧
    ((¬ ∃ p ∈ chapterPatterns, patMatches p t = true) →
      (∃ p ∈ subtitlePatterns, patMatches p t = true) →
        classifyContent t = (1, CType.subtitle)) ∧
    ((¬ ∃ p ∈ chapterPatterns, patMatches p t = true) →
      (¬ ∃ p ∈ subtitlePatterns, patMatches p t = true) →
        classifyContent t = (2, CType.content)) := by
  have hc : firstMatches chapterPatterns t = true ↔
      ∃ p ∈ chapterPatterns, patMatches p t = true := by
    rw [firstMatches_eq_any]
    exact List.any_eq_true
  have hs : firstMatches subtitlePatterns t = true ↔
      ∃ p ∈ subtitlePatterns, patMatches p t = true := by
    rw [firstMatches_eq_any]
    exact List.any_eq_true
  refine ⟨?_, ?_, ?_⟩
  · intro h
    unfold classifyContent
    rw [if_pos (hc.mpr h)]
  · intro h1 h2
    unfold classifyContent
    rw [if_neg (fun hh => h1 (hc.mp hh)), if_pos (hs.mpr h2)]
  · intro h1 h2
    unfold classifyContent
    rw [if_neg (fun hh => h1 (hc.mp hh)), if_neg (fun hh => h2 (hs.mp hh))]

/-- Witness for `classifier_order` at the chapter line `"一、前言"`. -/
theorem classifier_order_witness :
    classifyContent "一、前言" = (0, CType.chapter) :=
  (classifier_order "一、前言").1 (by decide)

lemma analyzeLoop_first (ps : List Paragraph) (h : ∃ p ∈ ps, pyStrip p.text ≠ "") :
    ∃ q rest, analyzeLoop true ps = classifyHeaderBlock q :: rest := by
  induction ps with
  | nil => simp at h
  | cons q qs ih =>
    by_cases hq : pyStrip q.text = ""
    · have h2 : ∃ p ∈ qs, pyStrip p.text ≠ "" := by
        rcases h with ⟨p, hp, hne⟩
        rcases List.mem_cons.mp hp with rfl | hmem
        · exact absurd hq hne
        · exact ⟨p, hmem, hne⟩
      rcases ih h2 with ⟨q0, rest, heq⟩
      exact ⟨q0, rest, by simp [analyzeLoop, hq, heq]⟩
    · exact ⟨q, analyzeLoop false qs, by simp [analyzeLoop, hq]⟩

/-- Claim C1 counterexample: on the two-paragraph document
`["標題", "內容"]` (no paragraph matches a chapter pattern) the
structural-repair pass of `_optimize_structure` promotes the first
block — the header itself, which always qualifies since its level is
0 ≤ 1 — to `(0, chapter)`, so the first block does not keep
`contentType == header`. -/
theorem header_promoted_counterexample :
    (analyzeDocument [⟨"標題", []⟩, ⟨"內容", []⟩]).map (fun b => b.content_type)
      = [CType.chapter, CType.content] ∧ CType.chapter ≠ CType.header := by
  decide

/-- Claim C1 (amended): for every document with at least one non-empty
paragraph, the first block produced by the per-paragraph pass has
`contentType == header`, and the final first block after structural
repair is `header` exactly when some block was classified `chapter`;
when no block was, the repair promotes the header itself to
`(0, chapter)`.  Its level is 0 in either case. -/
theorem analyzer_first_block (ps : List Paragraph)
    (h : ∃ p ∈ ps, pyStrip p.text ≠ "") :
    ((analyzeDocument ps).head?.map (fun b => b.content_type)
      = some (if hasChapter (analyzeLoop true ps) then CType.header else CType.chapter)) ∧
    ((analyzeDocument ps).head?.map (fun b => b.level) = some 0) := by
  rcases analyzeLoop_first ps h with ⟨q, rest, heq⟩
  unfold analyzeDocument optimizeStructure
  rw [heq]
  by_cases hc : hasChapter (classifyHeaderBlock q :: rest)
  · simp only [hc]
    simp [classifyHeaderBlock]
  · simp only [hc]
    simp [promoteFirstQualifying, classifyHeaderBlock]

/-- Witness for `analyzer_first_block` on a concrete two-paragraph
document containing a chapter line. -/
theorem analyzer_first_block_witness :
    ((analyzeDocument [⟨"報告", []⟩, ⟨"一、甲", []⟩]).head?.map (fun b => b.content_type)
      = some (if hasChapter (analyzeLoop true [⟨"報告", []⟩, ⟨"一、甲", []⟩])
              then CType.header else CType.chapter)) ∧
    ((analyzeDocument [⟨"報告", []⟩, ⟨"一、甲", []⟩]).head?.map (fun b => b.level) = some 0) :=
  analyzer_first_block [⟨"報告", []⟩, ⟨"一、甲", []⟩] (by decide)

lemma getBestLayout_ok (tpl : Template) (k : SlideKind) (h : tpl.layouts ≠ []) :
    ∃ l, getBestLayout tpl k = Except.ok l := by
  unfold getBestLayout
  cases k with
  | title =>
    cases hf : tpl.layouts.find?
        (fun l => nameContains l.name "title" || (tpl.layouts.head? == some l)) with
    | some l => exact ⟨l, rfl⟩
    | none =>
      cases hl : tpl.layouts with
      | nil => exact absurd hl h
      | cons l ls => exact ⟨l, rfl⟩
  | content =>
    cases hf : tpl.layouts.find? (fun l => nameContains l.name "content") with
    | some l => exact ⟨l, rfl⟩
    | none =>
      cases hl : tpl.layouts with
      | nil => exact absurd hl h
      | cons l ls =>
        cases ls with
        | nil => exact ⟨l, rfl⟩
        | cons l2 ls2 => exact ⟨l2, rfl⟩

lemma flushOpen_none {st : MapperState} (h : st.openSlide = none) :
    flushOpen st = st.slides := by
  unfold flushOpen
  rw [h]

lemma flushOpen_some {st : MapperState} {o : OpenSlide} (h : st.openSlide = some o) :
    flushOpen st = st.slides ++ [finalizeSlide o st.content] := by
  unfold flushOpen
  rw [h]

lemma sumLen_append1 (xs : List ContentBlock) (b : ContentBlock) :
    sumLen (xs ++ [b]) = sumLen xs + b.estimated_length := by
  simp [sumLen]

lemma sumLen_single (b : ContentBlock) : sumLen [b] = b.estimated_length := by
  simp [sumLen]

lemma flushOpen_ok {st : MapperState} (h : StOk st) : ∀ s ∈ flushOpen st, SlideOk s := by
  intro s hs
  cases ho : st.openSlide with
  | none =>
    rw [flushOpen_none ho] at hs
    exact h.1 s hs
  | some o =>
    rw [flushOpen_some ho] at hs
    rcases List.mem_append.mp hs with h1 | h2
    · exact h.1 s h1
    · have hse : s = finalizeSlide o st.content := by simpa using h2
      subst hse
      exact ⟨h.2.2.1, h.2.2.2⟩

lemma shouldCreate_false_facts {content : List ContentBlock} {len : Nat} {b : ContentBlock}
    (h : shouldCreateNewSlide content len b = false) :
    content.length < maxContentItems ∧ len + b.estimated_length ≤ maxContentLength := by
  unfold shouldCreateNewSlide at h
  split_ifs at h with h1 h2 h3
  exact ⟨Nat.lt_of_not_le h1, Nat.le_of_not_lt h2⟩

lemma except_map_ok {α β ε : Type} (f : α → β) (e : Except ε α) (y : β)
    (h : e.map f = Except.ok y) : ∃ x, e = Except.ok x ∧ f x = y := by
  cases e with
  | error err => simp [Except.map] at h
  | ok x =>
    simp [Except.map] at h
    exact ⟨x, rfl, h⟩

lemma processBlock_ok_inv {tpl : Template} {st st2 : MapperState} {b : ContentBlock}
    (h : StOk st) (hp : processBlock tpl st b = Except.ok st2) : StOk st2 := by
  unfold processBlock at hp
  split_ifs at hp with h1 h2 h3 h4
  · rcases except_map_ok _ _ _ hp with ⟨o, ho, rfl⟩
    exact ⟨flushOpen_ok h, rfl, by simp [maxContentItems], Or.inr (by simp)⟩
  · rcases except_map_ok _ _ _ hp with ⟨o, ho, rfl⟩
    exact ⟨flushOpen_ok h, rfl, by simp [maxContentItems], Or.inr (by simp)⟩
  · rcases except_map_ok _ _ _ hp with ⟨o, ho, rfl⟩
    exact ⟨flushOpen_ok h, (sumLen_single b).symm, by simp [maxContentItems], Or.inr (by simp)⟩
  · rcases except_map_ok _ _ _ hp with ⟨o, ho, rfl⟩
    exact ⟨flushOpen_ok h, (sumLen_single b).symm, by simp [maxContentItems], Or.inr (by simp)⟩
  · have hsf : shouldCreateNewSlide st.content st.contentLength b = false := by
      cases hx : shouldCreateNewSlide st.content st.contentLength b
      · rfl
      · exact absurd hx h4
    have hfacts := shouldCreate_false_facts hsf
    have h21 := h.2.1
    have hlt := hfacts.1
    have hle := hfacts.2
    cases ho : st.openSlide with
    | none =>
      rw [ho] at hp
      rcases except_map_ok _ _ _ hp with ⟨o, _, rfl⟩
      refine ⟨h.1, ?_, ?_, ?_⟩
      · show st.contentLength + b.estimated_length = sumLen (st.content ++ [b])
        rw [sumLen_append1, ← h21]
      · show (st.content ++ [b]).length ≤ maxContentItems
        simp only [List.length_append, List.length_cons, List.length_nil]
        omega
      · left
        show sumLen (st.content ++ [b]) ≤ maxContentLength
        rw [sumLen_append1]
        omega
    | some o =>
      rw [ho] at hp
      injection hp with hst
      subst hst
      refine ⟨h.1, ?_, ?_, ?_⟩
      · show st.contentLength + b.estimated_length = sumLen (st.content ++ [b])
        rw [sumLen_append1, ← h21]
      · show (st.content ++ [b]).length ≤ maxContentItems
        simp only [List.length_append, List.length_cons, List.length_nil]
        omega
      · left
        show sumLen (st.content ++ [b]) ≤ maxContentLength
        rw [sumLen_append1]
        omega

lemma runBlocks_ok_inv {tpl : Template} : ∀ (bs : List ContentBlock) (st st2 : MapperState),
    StOk st → runBlocks tpl st bs = Except.ok st2 → StOk st2 := by
  intro bs
  induction bs with
  | nil =>
    intro st st2 h hr
    unfold runBlocks at hr
    cases hr
    exact h
  | cons b bs ih =>
    intro st st2 h hr
    unfold runBlocks at hr
    cases hp : processBlock tpl st b with
    | error e =>
      rw [hp] at hr
      simp at hr
    | ok st1 =>
      rw [hp] at hr
      exact ih st1 st2 (processBlock_ok_inv h hp) hr

lemma initState_ok : StOk initState := by
  refine ⟨?_, rfl, ?_, Or.inr ?_⟩
  · intro s hs
    simp [initState] at hs
  · simp [initState, maxContentItems]
  · simp [initState]

lemma createSlides_slides_ok {tpl : Template} {blocks : List ContentBlock} {slides : List Slide}
    (h : createSlides tpl blocks = Except.ok slides) : ∀ s ∈ slides, SlideOk s := by
  unfold createSlides at h
  rcases except_map_ok _ _ _ h with ⟨st, hst, rfl⟩
  exact flushOpen_ok (runBlocks_ok_inv blocks initState st initState_ok hst)

/-- Claim C6: for every block sequence, the accumulated blocks of every
finalized content slide sum (in `estimatedLength`) to at most
`maxContentLength` (220), except when the slide holds a single block
whose own `estimatedLength` exceeds `maxContentLength`, in which case
that block sits alone on its slide. -/
theorem pagination_length_law (tpl : Template) (blocks : List ContentBlock)
    (slides : List Slide) (h : createSlides tpl blocks = Except.ok slides) :
    ∀ s ∈ slides, s.kind = SlideKind.content →
      sumLen s.blocks ≤ maxContentLength ∨
      ∃ b, s.blocks = [b] ∧ maxContentLength < b.estimated_length := by
  intro s hs _
  rcases (createSlides_slides_ok h s hs).2 with hsum | hlen
  · exact Or.inl hsum
  · cases hb : s.blocks with
    | nil =>
      left
      exact Nat.zero_le _
    | cons b rest =>
      cases rest with
      | nil =>
        by_cases hbig : maxContentLength < b.estimated_length
        · exact Or.inr ⟨b, rfl, hbig⟩
        · left
          rw [sumLen_single]
          exact Nat.le_of_not_lt hbig
      | cons b2 rest2 =>
        rw [hb] at hlen
        simp at hlen

/-- Witness for `pagination_length_law` on a chapter followed by one
short content block. -/
theorem pagination_length_law_witness :
    sumLen (Slide.mk "一、甲" SlideKind.content
        [ContentBlock.mk "丙" 2 CType.content (Formatting.mk false false 12) 4]).blocks
      ≤ maxContentLength ∨
    ∃ b, (Slide.mk "一、甲" SlideKind.content
        [ContentBlock.mk "丙" 2 CType.content (Formatting.mk false false 12) 4]).blocks = [b] ∧
      maxContentLength < b.estimated_length :=
  pagination_length_law sampleTemplate
    [ContentBlock.mk "一、甲" 0 CType.chapter (Formatting.mk false false 12) 6,
     ContentBlock.mk "丙" 2 CType.content (Formatting.mk false false 12) 4]
    [Slide.mk "一、甲" SlideKind.content
        [ContentBlock.mk "丙" 2 CType.content (Formatting.mk false false 12) 4]]
    (by rfl)
    (Slide.mk "一、甲" SlideKind.content
        [ContentBlock.mk "丙" 2 CType.content (Formatting.mk false false 12) 4])
    (by simp)
    (by rfl)

/-- Claim C7: for every block sequence, no finalized content slide
accumulates more than `maxContentItems` (4) blocks. -/
theorem pagination_item_count_law (tpl : Template) (blocks : List ContentBlock)
    (slides : List Slide) (h : createSlides tpl blocks = Except.ok slides) :
    ∀ s ∈ slides, s.kind = SlideKind.content → s.blocks.length ≤ maxContentItems := by
  intro s hs _
  exact (createSlides_slides_ok h s hs).1

/-- Witness for `pagination_item_count_law` on a single content
block. -/
theorem pagination_item_count_law_witness :
    (Slide.mk "甲" SlideKind.content
        [ContentBlock.mk "甲" 2 CType.content (Formatting.mk false false 12) 2]).blocks.length
      ≤ maxContentItems :=
  pagination_item_count_law sampleTemplate
    [ContentBlock.mk "甲" 2 CType.content (Formatting.mk false false 12) 2]
    [Slide.mk "甲" SlideKind.content
        [ContentBlock.mk "甲" 2 CType.content (Formatting.mk false false 12) 2]]
    (by rfl)
    (Slide.mk "甲" SlideKind.content
        [ContentBlock.mk "甲" 2 CType.content (Formatting.mk false false 12) 2])
    (by simp)
    (by rfl)

lemma getBestLayout_empty (k : SlideKind) :
    getBestLayout emptyTemplate k = Except.error TemplateError.noLayouts := by
  cases k <;> rfl

lemma processBlock_noOpen_empty (st : MapperState) (b : ContentBlock)
    (ho : st.openSlide = none) :
    processBlock emptyTemplate st b = Except.error TemplateError.noLayouts := by
  unfold processBlock createTitleSlide createContentSlide
  split_ifs <;> simp [getBestLayout_empty, Except.map, ho]

/-- Claim C9: on a template whose slide-layout collection is empty, the
pagination engine fails with a `TemplateError` for every non-empty
block sequence — it never silently produces zero slides.  (In the
source the failure is the exception raised by indexing
`slide_layouts[0]` while creating the very first slide.) -/
theorem empty_template_fails (blocks : List ContentBlock) (h : blocks ≠ []) :
    createSlides emptyTemplate blocks = Except.error TemplateError.noLayouts := by
  cases blocks with
  | nil => exact absurd rfl h
  | cons b bs =>
    unfold createSlides runBlocks
    rw [processBlock_noOpen_empty initState b rfl]
    rfl

/-- Witness for `empty_template_fails` on a one-block sequence. -/
theorem empty_template_fails_witness :
    createSlides emptyTemplate
        [ContentBlock.mk "甲" 2 CType.content (Formatting.mk false false 12) 2]
      = Except.error TemplateError.noLayouts :=
  empty_template_fails
    [ContentBlock.mk "甲" 2 CType.content (Formatting.mk false false 12) 2] (by simp)

/-- Claim C5 counterexample: the continuation slide is titled with the
subtitle-cleaned form of `currentChapterTitle + " (續)"`, not with
`currentChapterTitle + " (續)"` verbatim.  Promoted chapter blocks can
carry a subtitle-style prefix (here `"(1)概述"`), which
`_create_content_slide` strips from the continuation title. -/
theorem subtitle_break_title_counterexample :
    (createSlides sampleTemplate
        [ContentBlock.mk "(1)概述" 0 CType.chapter (Formatting.mk false false 12) 8,
         ContentBlock.mk "(一)細節" 1 CType.subtitle (Formatting.mk false false 12) 10]).map
      (fun ss => ss.map (fun s => s.title))
      = Except.ok ["概述", "概述 (續)"] ∧
    ("概述 (續)" : String) ≠ "(1)概述" ++ " (續)" := by
  constructor
  · rfl
  · decide

/-- Claim C5 (amended): a `subtitle` block always triggers a page
break, in every mapper state — regardless of the accumulator's item
count or length: the open slide is closed, a new content slide is
opened whose title is the subtitle-cleaned form of
`currentChapterTitle + " (續)"`, and the subtitle block itself becomes
the sole (first) element of the new slide's accumulator, i.e. its text
is the first body line, not the title. -/
theorem subtitle_always_breaks (tpl : Template) (st : MapperState) (b : ContentBlock)
    (hb : b.content_type = CType.subtitle) (ht : tpl.layouts ≠ []) :
    processBlock tpl st b = Except.ok
      (MapperState.mk (flushOpen st)
        (some (OpenSlide.mk (cleanSubtitleText (st.chapterTitle ++ " (續)")) SlideKind.content))
        [b] st.chapterTitle b.estimated_length) := by
  obtain ⟨l, hl⟩ := getBestLayout_ok tpl SlideKind.content ht
  unfold processBlock createContentSlide
  rw [hb]
  rw [if_neg (by decide), if_neg (by decide), if_pos rfl]
  rw [hl]
  rfl

/-- Witness for `subtitle_always_breaks` at the initial state. -/
theorem subtitle_always_breaks_witness :
    processBlock sampleTemplate initState
        (ContentBlock.mk "(一)細節" 1 CType.subtitle (Formatting.mk false false 12) 10)
      = Except.ok
        (MapperState.mk (flushOpen initState)
          (some (OpenSlide.mk (cleanSubtitleText (initState.chapterTitle ++ " (續)")) SlideKind.content))
          [ContentBlock.mk "(一)細節" 1 CType.subtitle (Formatting.mk false false 12) 10]
          initState.chapterTitle
          (ContentBlock.mk "(一)細節" 1 CType.subtitle (Formatting.mk false false 12) 10).estimated_length) :=
  subtitle_always_breaks sampleTemplate initState
    (ContentBlock.mk "(一)細節" 1 CType.subtitle (Formatting.mk false false 12) 10)
    rfl (by decide)

set_option maxRecDepth 4000 in
/-- Claim C10 counterexample: a content block arriving with no open
slide does not always become the slide title — when its
`estimatedLength` exceeds `maxContentLength` the page-break check
fires first, so the block lands on a continuation slide titled
`"(續)"` (from the empty `currentChapterTitle`), not on a slide
titled with its own cleaned text. -/
theorem content_first_oversized_counterexample :
    (createSlides sampleTemplate
        [ContentBlock.mk (String.mk (List.replicate 112 '資')) 2 CType.content
          (Formatting.mk false false 12)
          (estimateTextLength (String.mk (List.replicate 112 '資')))]).map
      (fun ss => ss.map (fun s => s.title))
      = Except.ok ["(續)"] ∧
    ("(續)" : String) ≠ cleanSubtitleText (String.mk (List.replicate 112 '資')) := by
  constructor
  · rfl
  · decide

/-- Claim C10 (amended): when a content block arrives in the initial
state (no slide open, nothing accumulated) and its `estimatedLength`
does not exceed `maxContentLength` (so the page-break check does not
fire), the engine opens a content slide titled with the block's
subtitle-cleaned text and also appends the block itself to the new
slide's accumulator — the block's cleaned text is the slide title and
its raw text the first body line. -/
theorem content_block_no_open_slide (tpl : Template) (b : ContentBlock)
    (hb : b.content_type = CType.content) (hlen : b.estimated_length ≤ maxContentLength)
    (ht : tpl.layouts ≠ []) :
    processBlock tpl initState b = Except.ok
      (MapperState.mk []
        (some (OpenSlide.mk (cleanSubtitleText b.text) SlideKind.content))
        [b] "" b.estimated_length) := by
  obtain ⟨l, hl⟩ := getBestLayout_ok tpl SlideKind.content ht
  have hsf : shouldCreateNewSlide initState.content initState.contentLength b = false := by
    unfold shouldCreateNewSlide
    rw [if_neg (by decide), if_neg ?h2, if_neg ?h3]
    case h2 => simpa [initState] using Nat.not_lt.mpr hlen
    case h3 => simp [hb]
  unfold processBlock createContentSlide
  rw [hb]
  rw [if_neg (by decide), if_neg (by decide), if_neg (by decide)]
  rw [if_neg (by simp [hsf])]
  rw [show initState.openSlide = none from rfl, hl]
  simp [Except.map, initState]

/-- Witness for `content_block_no_open_slide` on a short content
block with a subtitle-style prefix. -/
theorem content_block_no_open_slide_witness :
    processBlock sampleTemplate initState
        (ContentBlock.mk "(1)資料" 2 CType.content (Formatting.mk false false 12) 8)
      = Except.ok
        (MapperState.mk []
          (some (OpenSlide.mk (cleanSubtitleText "(1)資料") SlideKind.content))
          [ContentBlock.mk "(1)資料" 2 CType.content (Formatting.mk false false 12) 8]
          "" 8) :=
  content_block_no_open_slide sampleTemplate
    (ContentBlock.mk "(1)資料" 2 CType.content (Formatting.mk false false 12) 8)
    rfl (by decide) (by decide)

/-- Claim C2 counterexample: on Scenario A's three paragraphs the
engine does emit a title slide `"報告標題"` and one content slide with
the single body line `"這是前言內容"`, but the content slide is titled
`"一、前言"` — `_create_content_slide` applies the subtitle-cleaning
pipeline, which does not strip the chapter marker `"一、"` — not
`"前言"` as claimed. -/
theorem scenarioA_counterexample :
    (createSlides sampleTemplate
        (analyzeDocument [Paragraph.mk "報告標題" [], Paragraph.mk "一、前言" [],
          Paragraph.mk "這是前言內容" []])).map
      (fun ss => ss.map (fun s => (s.title, s.blocks.map (fun b => b.text))))
      = Except.ok [("報告標題", []), ("一、前言", ["這是前言內容"])] ∧
    ("一、前言" : String) ≠ "前言" := by
  constructor
  · rfl
  · decide

/-- Claim C2 (amended): Scenario A yields the claimed blocks
`[(header, 報告標題), (chapter, 一、前言), (content, 這是前言內容)]`
and exactly two slides — a title slide `"報告標題"` and a content
slide with the single body line `"這是前言內容"` — but the content
slide is titled `"一、前言"` (subtitle cleaning leaves the chapter
marker in place), not `"前言"`. -/
theorem scenarioA_amended :
    (analyzeDocument [Paragraph.mk "報告標題" [], Paragraph.mk "一、前言" [],
        Paragraph.mk "這是前言內容" []]).map (fun b => (b.content_type, b.text))
      = [(CType.header, "報告標題"), (CType.chapter, "一、前言"),
         (CType.content, "這是前言內容")] ∧
    (createSlides sampleTemplate
        (analyzeDocument [Paragraph.mk "報告標題" [], Paragraph.mk "一、前言" [],
          Paragraph.mk "這是前言內容" []])).map
      (fun ss => ss.map (fun s => (s.kind, s.title, s.blocks.map (fun b => b.text))))
      = Except.ok [(SlideKind.title, "報告標題", []),
                   (SlideKind.content, "一、前言", ["這是前言內容"])] := by
  constructor
  · rfl
  · rfl

/-- Claim C4 counterexample: for a chapter followed by a single content
block of `estimatedLength` 300, the engine emits two content slides,
not one — the length check `current_length + estimated_length >
max_content_length` has no first-item exemption, so `0 + 300 > 220`
forces a break that finalizes the chapter's slide empty and moves the
block to a continuation slide. -/
theorem oversized_single_block_counterexample :
    (createSlides sampleTemplate
        [ContentBlock.mk "一、甲" 0 CType.chapter (Formatting.mk false false 12) 6,
         ContentBlock.mk "乙" 2 CType.content (Formatting.mk false false 12) 300]).map
      (fun ss => ss.length) = Except.ok 2 ∧ (2 : Nat) ≠ 1 := by
  constructor
  · rfl
  · decide

/-- Claim C4 (amended): for a chapter followed by one content block of
`estimatedLength` 300 (with `maxContentLength = 220`), the length
check does fire even though the accumulator is empty, so the engine
emits two content slides: the chapter's slide with an empty body, and
a continuation slide titled `"一、甲 (續)"` holding the oversized
block alone. -/
theorem oversized_single_block_amended :
    shouldCreateNewSlide [] 0
        (ContentBlock.mk "乙" 2 CType.content (Formatting.mk false false 12) 300) = true ∧
    (createSlides sampleTemplate
        [ContentBlock.mk "一、甲" 0 CType.chapter (Formatting.mk false false 12) 6,
         ContentBlock.mk "乙" 2 CType.content (Formatting.mk false false 12) 300]).map
      (fun ss => ss.map (fun s => (s.title, s.blocks.map (fun b => b.text))))
      = Except.ok [("一、甲", []), ("一、甲 (續)", ["乙"])] := by
  constructor
  · rfl
  · rfl
